import Mathlib

/-!
Verification development for the DCCLight1616 mobile DCC decoder firmware
(ATtiny1616, TMC400).

The repository holds two firmware variants of the same decoder:

* the AP_DCC_library variant (`src/src/main.cpp`, first unit, and an older
  revision of it in `src/unnamed/part_001`): CVs are cached in a 100-byte RAM
  array mirrored to EEPROM, function states F0..F28 are tracked in
  `fctStateCache`, light gates live in `lightStateCache`, and CV access is
  handled by `cvOperation`;
* the NmraDcc variant (`src/src/main.cpp`, second unit): the NmraDcc library
  owns CV storage, the decoder keeps `cvsCache` (85 bytes), `fctsCache`
  (F0..F4 only) and `lightCache`, with gate recomputation in
  `updateLightCache`.

Both variants are embedded below as pure state-transition functions.  Machine
bytes are modelled as `Nat` (with `% 256` exactly where the C code casts);
RAM arrays are modelled as total functions from index to value, so that a C
read past the end of an array reads unspecified junk.  Where a claim is about
absence of such an out-of-bounds read, an instrumented `Option`-valued
evaluator (`lightGateChecked`, and the `none` arm of `valueLight` for the
missing `switch` default) makes the undefined access observable.
-/

namespace DCCLight

/-- Gamma table shared verbatim by every variant (256 entries). -/
def gammaTable : List Nat := [
    0, 0, 0, 0, 0, 0, 0, 0, 0, 0, 0, 0, 0, 0, 0, 0,
    0, 0, 0, 0, 0, 0, 0, 0, 0, 0, 0, 0, 1, 1, 1, 1,
    1, 1, 1, 1, 1, 1, 1, 1, 1, 2, 2, 2, 2, 2, 2, 2,
    2, 3, 3, 3, 3, 3, 3, 3, 4, 4, 4, 4, 4, 5, 5, 5,
    5, 6, 6, 6, 6, 7, 7, 7, 7, 8, 8, 8, 9, 9, 9, 10,
    10, 10, 11, 11, 11, 12, 12, 13, 13, 13, 14, 14, 15, 15, 16, 16,
    17, 17, 18, 18, 19, 19, 20, 20, 21, 21, 22, 22, 23, 24, 24, 25,
    25, 26, 27, 27, 28, 29, 29, 30, 31, 32, 32, 33, 34, 35, 35, 36,
    37, 38, 39, 39, 40, 41, 42, 43, 44, 45, 46, 47, 48, 49, 50, 50,
    51, 52, 54, 55, 56, 57, 58, 59, 60, 61, 62, 63, 64, 66, 67, 68,
    69, 70, 72, 73, 74, 75, 77, 78, 79, 81, 82, 83, 85, 86, 87, 89,
    90, 92, 93, 95, 96, 98, 99, 101, 102, 104, 105, 107, 109, 110, 112, 114,
    115, 117, 119, 120, 122, 124, 126, 127, 129, 131, 133, 135, 137, 138, 140, 142,
    144, 146, 148, 150, 152, 154, 156, 158, 160, 162, 164, 167, 169, 171, 173, 175,
    177, 180, 182, 184, 186, 189, 191, 193, 196, 198, 200, 203, 205, 208, 210, 213,
    215, 218, 220, 223, 225, 228, 231, 233, 236, 239, 241, 244, 247, 249, 252, 255]

/-- `gamma[x]` lookup; indices are always bytes (0..255) at every call site. -/
def gammaFn (x : Nat) : Nat := gammaTable.getD x 0

/-- Flash period constants shared by both variants of `src/src/main.cpp`. -/
def strobeFlashPeriod : Nat := 150

/-- Rotating-flash period of both `src/src/main.cpp` variants (the older
`src/unnamed/part_001` revision used 400; the claims cite the 600 ms one). -/
def rotatingFlashPeriod : Nat := 600

namespace APDCC

/-- `NumberOfCvsInCache` (AP_DCC variant): size of `cvsCache[]`. -/
def NumberOfCvsInCache : Nat := 100

/-- `numberOfFcts` (AP_DCC variant of `src/src/main.cpp`): size of
`fctStateCache[]`, functions F0..F28. -/
def numberOfFcts : Nat := 29

/-- `numberOfLights`: the four output channels. -/
def numberOfLights : Nat := 4

/-- CV number constants (shared layout of all variants). -/
def CV1PrimaryAddress : Nat := 1

def CV7ManufacturerVersionNumber : Nat := 7

def CV8ManufacturerIDNumber : Nat := 8

def CV50Light0Brightness : Nat := 50

def CV51Light0ControlFunction : Nat := 51

def CV52Light0DirectionSensitivity : Nat := 52

def CV53Light0SpeedSensitivity : Nat := 53

def CV54Light0Effect : Nat := 54

/-- `OPModeServiceMode` / `OPModeProgramOnMain` constants of `cvOperation`. -/
def OPModeServiceMode : Nat := 1

def OPModeProgramOnMain : Nat := 2

/-- Fields of the AP_DCC_library `Loco` object read by this firmware:
function-group bitmasks, speed and direction. -/
structure LocoState where
  F0F4 : Nat
  F5F8 : Nat
  F9F12 : Nat
  F13F20 : Nat
  F21F28 : Nat
  speed : Nat
  forward : Bool

/-- Mutable decoder state of the AP_DCC variant: the CV RAM cache, the EEPROM
mirror, the function-state cache and the light-gate cache.  Arrays are
modelled as total functions; only indices below the declared array sizes
correspond to real array cells, larger indices model adjacent junk memory. -/
structure DecoderState where
  cvsCache : Nat → Nat
  eeprom : Nat → Nat
  fctStateCache : Nat → Bool
  lightStateCache : Nat → Bool

/-- `resetCVsToDefault` writes this value into `cvsCache[n]` for `n < 100`:
zero everywhere except the enumerated factory defaults. -/
def defaultCv : Nat → Nat
  | 1 => 3
  | 7 => 1
  | 8 => 13
  | 50 => 255
  | 54 => 1
  | 60 => 150
  | 61 => 1
  | 64 => 2
  | 70 => 150
  | 71 => 2
  | 80 => 150
  | 81 => 3
  | _ => 0

/-- `resetCVsToDefault()` of the AP_DCC variant: zero the whole cache, apply
the factory-default table, then `storeCVsToEEPROM()` (which copies all 100
cache bytes to EEPROM). -/
def resetCVsToDefault (s : DecoderState) : DecoderState :=
  let newCvs : Nat → Nat := fun n => if n < NumberOfCvsInCache then defaultCv n else s.cvsCache n
  { s with
    cvsCache := newCvs
    eeprom := fun n => if n < NumberOfCvsInCache then newCvs n else s.eeprom n }

/-- `updateFctsStateCache()` of the AP_DCC variant of `src/src/main.cpp`:
the 29 assignments from the five function-group bitmasks, with the exact
masks of the source. -/
def updateFctsStateCache (s : DecoderState) (loco : LocoState) : DecoderState :=
  { s with fctStateCache := fun i =>
      if i = 0 then loco.F0F4 &&& 0b00010000 != 0
      else if i = 1 then loco.F0F4 &&& 0b00000001 != 0
      else if i = 2 then loco.F0F4 &&& 0b00000010 != 0
      else if i = 3 then loco.F0F4 &&& 0b00000100 != 0
      else if i = 4 then loco.F0F4 &&& 0b00001000 != 0
      else if i = 5 then loco.F5F8 &&& 0b00000001 != 0
      else if i = 6 then loco.F5F8 &&& 0b00000010 != 0
      else if i = 7 then loco.F5F8 &&& 0b00000100 != 0
      else if i = 8 then loco.F5F8 &&& 0b00001000 != 0
      else if i = 9 then loco.F9F12 &&& 0b00000001 != 0
      else if i = 10 then loco.F9F12 &&& 0b00000010 != 0
      else if i = 11 then loco.F9F12 &&& 0b00000100 != 0
      else if i = 12 then loco.F9F12 &&& 0b00001000 != 0
      else if i = 13 then loco.F13F20 &&& 0b00000001 != 0
      else if i = 14 then loco.F13F20 &&& 0b00000010 != 0
      else if i = 15 then loco.F13F20 &&& 0b00000100 != 0
      else if i = 16 then loco.F13F20 &&& 0b00001000 != 0
      else if i = 17 then loco.F13F20 &&& 0b00010000 != 0
      else if i = 18 then loco.F13F20 &&& 0b00100000 != 0
      else if i = 19 then loco.F13F20 &&& 0b01000000 != 0
      else if i = 20 then loco.F13F20 &&& 0b10000000 != 0
      else if i = 21 then loco.F21F28 &&& 0b00000001 != 0
      else if i = 22 then loco.F21F28 &&& 0b00000010 != 0
      else if i = 23 then loco.F21F28 &&& 0b00000100 != 0
      else if i = 24 then loco.F21F28 &&& 0b00001000 != 0
      else if i = 25 then loco.F21F28 &&& 0b00010000 != 0
      else if i = 26 then loco.F21F28 &&& 0b00100000 != 0
      else if i = 27 then loco.F21F28 &&& 0b01000000 != 0
      else if i = 28 then loco.F21F28 &&& 0b10000000 != 0
      else s.fctStateCache i }

/-- The gate expression of `updateLightsStateCache()` for one channel, as the
source writes it (total model: a control-function value outside the
`fctStateCache` array reads junk memory; see `lightGateChecked`). -/
def lightGateVal (s : DecoderState) (loco : LocoState) (lightNr : Nat) : Bool :=
  let lightNrOffset := lightNr * 10
  ((s.cvsCache (CV51Light0ControlFunction + lightNrOffset) == 31 ||
      s.fctStateCache (s.cvsCache (CV51Light0ControlFunction + lightNrOffset))) &&
   (s.cvsCache (CV52Light0DirectionSensitivity + lightNrOffset) == 0 ||
      (s.cvsCache (CV52Light0DirectionSensitivity + lightNrOffset) == 1 && loco.forward) ||
      (s.cvsCache (CV52Light0DirectionSensitivity + lightNrOffset) == 2 && !loco.forward)) &&
   (s.cvsCache (CV53Light0SpeedSensitivity + lightNrOffset) == 0 ||
      (s.cvsCache (CV53Light0SpeedSensitivity + lightNrOffset) == 1 && decide (loco.speed > 0))))

/-- `updateLightsStateCache()` of the AP_DCC variant: recompute the four
light gates from the current CVs, function states and motion state. -/
def updateLightsStateCache (s : DecoderState) (loco : LocoState) : DecoderState :=
  { s with lightStateCache := fun lightNr =>
      if lightNr < numberOfLights then lightGateVal s loco lightNr
      else s.lightStateCache lightNr }

/-- Bounds-instrumented read of `fctStateCache[i]`: `none` when the C code
would read past the 29-entry array. -/
def readFctChecked (s : DecoderState) (i : Nat) : Option Bool :=
  if i < numberOfFcts then some (s.fctStateCache i) else none

/-- Bounds-instrumented version of the gate expression of
`updateLightsStateCache()`: identical to `lightGateVal` except that the
`fctStateCache[cvsCache[CV51..]]` read is checked, so the result is `none`
exactly when the source performs an out-of-bounds array read (control
function neither 31 nor below 29; `||` short-circuits on 31 as in C). -/
def lightGateChecked (s : DecoderState) (loco : LocoState) (lightNr : Nat) : Option Bool :=
  let lightNrOffset := lightNr * 10
  let ctrl := s.cvsCache (CV51Light0ControlFunction + lightNrOffset)
  (if ctrl == 31 then some true else readFctChecked s ctrl).map fun fnOk =>
    (fnOk &&
     (s.cvsCache (CV52Light0DirectionSensitivity + lightNrOffset) == 0 ||
        (s.cvsCache (CV52Light0DirectionSensitivity + lightNrOffset) == 1 && loco.forward) ||
        (s.cvsCache (CV52Light0DirectionSensitivity + lightNrOffset) == 2 && !loco.forward)) &&
     (s.cvsCache (CV53Light0SpeedSensitivity + lightNrOffset) == 0 ||
        (s.cvsCache (CV53Light0SpeedSensitivity + lightNrOffset) == 1 && decide (loco.speed > 0))))

/-- `valueLight(lightNr)` of the AP_DCC variant, with `millis()` passed in as
`now`.  The `switch` on the effect CV has no `default` case: when the gate is
true and the effect byte is none of 0, 1, 2 control falls off the end of the
non-void C function (undefined return value), modelled as `none`.  The
`(uint8_t)` cast in the rotating arm is `% 256`. -/
def valueLight (s : DecoderState) (now : Nat) (lightNr : Nat) : Option Nat :=
  let lightNrOffset := lightNr * 10
  if s.lightStateCache lightNr then
    match s.cvsCache (CV54Light0Effect + lightNrOffset) with
    | 0 => some (gammaFn (s.cvsCache (CV50Light0Brightness + lightNrOffset)))
    | 1 =>
        let timeNow := now % strobeFlashPeriod
        if timeNow < strobeFlashPeriod / 12 then
          some (gammaFn (s.cvsCache (CV50Light0Brightness + lightNrOffset)))
        else
          some 0
    | 2 =>
        let timeNow := now % rotatingFlashPeriod
        if timeNow < rotatingFlashPeriod / 2 then
          some (gammaFn ((2 * s.cvsCache (CV50Light0Brightness + lightNrOffset) * timeNow
                            / rotatingFlashPeriod) % 256))
        else
          some (gammaFn ((2 * s.cvsCache (CV50Light0Brightness + lightNrOffset)
                            * (rotatingFlashPeriod - timeNow) / rotatingFlashPeriod) % 256))
    | _ => none
  else
    some 0

/-- Operation kinds of the AP_DCC_library `CvAccess` object. -/
inductive CvOpKind
  | verifyByte
  | writeByte
  | bitManipulation
  deriving DecidableEq

/-- One decoded CV-access request (`cvCmd` fields read by `cvOperation`). -/
structure CvRequest where
  number : Nat
  value : Nat
  operation : CvOpKind
  writecmd : Bool
  bitposition : Nat
  bitvalue : Nat

/-- Modelled from the spec: `CvAccess::writeBit` of the external
AP_DCC_library (not part of this repository) computes "the new byte value by
setting/clearing the specified bit position to the specified bit value". -/
def writeBit (req : CvRequest) (oldValue : Nat) : Nat :=
  if req.bitvalue != 0 then oldValue ||| 2 ^ req.bitposition
  else oldValue &&& (255 ^^^ 2 ^ req.bitposition)

/-- Modelled from the spec: `CvAccess::verifyBit` of the external
AP_DCC_library checks "whether the specified bit already equals the specified
value". -/
def verifyBit (req : CvRequest) (storedValue : Nat) : Bool :=
  storedValue.testBit req.bitposition == (req.bitvalue != 0)

/-- `cvOperation(op_mode)` of the AP_DCC variant of `src/src/main.cpp`:
bounds check, dispatch on the operation, then the unconditional
`updateFctsStateCache(); updateLightsStateCache();` refresh.  The returned
`Bool` records whether `dcc.sendAck()` was emitted. -/
def cvOperation (opMode : Nat) (req : CvRequest) (loco : LocoState) (s : DecoderState) :
    DecoderState × Bool :=
  if req.number < NumberOfCvsInCache then
    let afterSwitch : DecoderState × Bool :=
      match req.operation with
      | CvOpKind.verifyByte =>
          (s, (s.cvsCache req.number == req.value) && (opMode == OPModeServiceMode))
      | CvOpKind.writeByte =>
          let s1 :=
            if req.number = CV7ManufacturerVersionNumber then s
            else if req.number = CV8ManufacturerIDNumber then
              (if req.value = 8 then resetCVsToDefault s else s)
            else
              { s with
                cvsCache := Function.update s.cvsCache req.number req.value
                eeprom := Function.update s.eeprom req.number req.value }
          (s1, opMode == OPModeServiceMode)
      | CvOpKind.bitManipulation =>
          if req.writecmd then
            ({ s with
               cvsCache := Function.update s.cvsCache req.number
                   (writeBit req (s.cvsCache req.number)) },
             opMode == OPModeServiceMode)
          else
            (s, verifyBit req (s.cvsCache req.number) && (opMode == OPModeServiceMode))
    (updateLightsStateCache (updateFctsStateCache afterSwitch.1 loco) loco, afterSwitch.2)
  else
    (s, false)

end APDCC

namespace NMRA

/-- `DCC_DIRECTION` of the NmraDcc library: `DCC_DIR_REV` / `DCC_DIR_FWD`. -/
inductive Direction
  | rev
  | fwd
  deriving DecidableEq

/-- `numberOfFctsInCache` (NmraDcc variant): size of `fctsCache[]`, F0..F4. -/
def numberOfFctsInCache : Nat := 5

/-- `numberOfLights`: the four output channels. -/
def numberOfLights : Nat := 4

/-- Mutable decoder state of the NmraDcc variant read and written by
`updateLightCache`: the CV RAM cache (indexed by CV number, 0..84), the
function-state cache F0..F4, the light-gate cache, and the cached motion
state.  Arrays are modelled as total functions as in the AP_DCC variant. -/
structure StateB where
  cvsCache : Nat → Nat
  fctsCache : Nat → Bool
  lightCache : Nat → Bool
  currentSpeed : Nat
  currentDirection : Direction

/-- The gate expression of `updateLightCache()` for one channel, evaluated on
the state after that channel's control-function clamp (note the NmraDcc
variant compares `currentSpeed > 1`, not `> 0`). -/
def gateB (s : StateB) (lightNr : Nat) : Bool :=
  let lightNrOffset := lightNr * 10
  ((s.cvsCache (51 + lightNrOffset) == 31 ||
      s.fctsCache (s.cvsCache (51 + lightNrOffset))) &&
   (s.cvsCache (52 + lightNrOffset) == 0 ||
      (s.cvsCache (52 + lightNrOffset) == 1 && s.currentDirection == Direction.fwd) ||
      (s.cvsCache (52 + lightNrOffset) == 2 && s.currentDirection == Direction.rev)) &&
   (s.cvsCache (53 + lightNrOffset) == 0 ||
      (s.cvsCache (53 + lightNrOffset) == 1 && decide (s.currentSpeed > 1))))

/-- One iteration of the `updateLightCache()` loop body for channel
`lightNr`: first the clamp
`if (cvsCache[CV51.. + off] > numberOfFctsInCache - 1) cvsCache[..] = 31;`
(a write into the CV cache), then the gate store. -/
def updateLightCacheStep (s : StateB) (lightNr : Nat) : StateB :=
  let lightNrOffset := lightNr * 10
  let s1 :=
    if numberOfFctsInCache - 1 < s.cvsCache (51 + lightNrOffset) then
      { s with cvsCache := Function.update s.cvsCache (51 + lightNrOffset) 31 }
    else s
  { s1 with lightCache := Function.update s1.lightCache lightNr (gateB s1 lightNr) }

/-- `updateLightCache()` of the NmraDcc variant: the loop over the four
channels. -/
def updateLightCache (s : StateB) : StateB :=
  updateLightCacheStep (updateLightCacheStep (updateLightCacheStep
    (updateLightCacheStep s 0) 1) 2) 3

end NMRA

/-! ### Spec-side definitions

These follow the wording of the specification / claims (not the source), for
comparison with the embedded code. -/

/-- Spec formula for the light gate (spec section 4.4), evaluated on the
AP_DCC variant state:
`gate = (ctrl_fn == 31 OR function_state[ctrl_fn]) AND (dir_sens == 0 OR
(dir_sens==1 AND direction==forward) OR (dir_sens==2 AND direction==reverse))
AND (speed_sens == 0 OR (speed_sens==1 AND speed>0))`. -/
def specGateA (s : APDCC.DecoderState) (loco : APDCC.LocoState) (channel : Nat) : Bool :=
  let ctrlFn := s.cvsCache (51 + channel * 10)
  let dirSens := s.cvsCache (52 + channel * 10)
  let speedSens := s.cvsCache (53 + channel * 10)
  ((ctrlFn == 31 || s.fctStateCache ctrlFn) &&
   (dirSens == 0 || (dirSens == 1 && loco.forward) || (dirSens == 2 && !loco.forward)) &&
   (speedSens == 0 || (speedSens == 1 && decide (loco.speed > 0))))

/-- Spec formula for the light gate (same claim wording, `speed > 0`),
evaluated on the NmraDcc variant state.  Used to exhibit that the NmraDcc
code does not satisfy it. -/
def specGateBClaim (s : NMRA.StateB) (channel : Nat) : Bool :=
  let ctrlFn := s.cvsCache (51 + channel * 10)
  let dirSens := s.cvsCache (52 + channel * 10)
  let speedSens := s.cvsCache (53 + channel * 10)
  ((ctrlFn == 31 || s.fctsCache ctrlFn) &&
   (dirSens == 0 || (dirSens == 1 && s.currentDirection == NMRA.Direction.fwd) ||
      (dirSens == 2 && s.currentDirection == NMRA.Direction.rev)) &&
   (speedSens == 0 || (speedSens == 1 && decide (s.currentSpeed > 0))))

/-- Amended gate formula for the NmraDcc variant, in terms of the pre-update
state: a control-function value above 4 counts as always-active (the code
clamps it to 31 first), and the speed clause compares `currentSpeed > 1`. -/
def specGateBAmended (s : NMRA.StateB) (channel : Nat) : Bool :=
  let ctrlFn := s.cvsCache (51 + channel * 10)
  let dirSens := s.cvsCache (52 + channel * 10)
  let speedSens := s.cvsCache (53 + channel * 10)
  ((decide (4 < ctrlFn) || s.fctsCache ctrlFn) &&
   (dirSens == 0 || (dirSens == 1 && s.currentDirection == NMRA.Direction.fwd) ||
      (dirSens == 2 && s.currentDirection == NMRA.Direction.rev)) &&
   (speedSens == 0 || (speedSens == 1 && decide (s.currentSpeed > 1))))

/-! ### Helper lemmas -/

namespace APDCC

lemma updateFctsStateCache_cvsCache (s : DecoderState) (loco : LocoState) :
    (updateFctsStateCache s loco).cvsCache = s.cvsCache := rfl

lemma updateFctsStateCache_eeprom (s : DecoderState) (loco : LocoState) :
    (updateFctsStateCache s loco).eeprom = s.eeprom := rfl

lemma updateLightsStateCache_cvsCache (s : DecoderState) (loco : LocoState) :
    (updateLightsStateCache s loco).cvsCache = s.cvsCache := rfl

lemma updateLightsStateCache_eeprom (s : DecoderState) (loco : LocoState) :
    (updateLightsStateCache s loco).eeprom = s.eeprom := rfl

end APDCC

namespace NMRA

lemma stepB_cvsCache (s : StateB) (ln n : Nat) :
    (updateLightCacheStep s ln).cvsCache n =
      if n = 51 + ln * 10 ∧ 4 < s.cvsCache n then 31 else s.cvsCache n := by
  simp only [updateLightCacheStep, numberOfFctsInCache]
  by_cases h : 5 - 1 < s.cvsCache (51 + ln * 10)
  · rw [if_pos h]
    by_cases hn : n = 51 + ln * 10
    · subst hn
      simp [Function.update_same, show 4 < s.cvsCache (51 + ln * 10) by omega]
    · simp only [Function.update_noteq hn]
      rw [if_neg (by tauto)]
  · rw [if_neg h]
    by_cases hn : n = 51 + ln * 10
    · subst hn
      rw [if_neg (by omega)]
    · rw [if_neg (by tauto)]

lemma stepB_fctsCache (s : StateB) (ln : Nat) :
    (updateLightCacheStep s ln).fctsCache = s.fctsCache := by
  simp only [updateLightCacheStep]
  split <;> rfl

lemma stepB_currentSpeed (s : StateB) (ln : Nat) :
    (updateLightCacheStep s ln).currentSpeed = s.currentSpeed := by
  simp only [updateLightCacheStep]
  split <;> rfl

lemma stepB_currentDirection (s : StateB) (ln : Nat) :
    (updateLightCacheStep s ln).currentDirection = s.currentDirection := by
  simp only [updateLightCacheStep]
  split <;> rfl

lemma stepB_lightCache_ne (s : StateB) (ln n : Nat) (h : n ≠ ln) :
    (updateLightCacheStep s ln).lightCache n = s.lightCache n := by
  simp only [updateLightCacheStep]
  split <;> simp [Function.update_noteq h]

lemma stepB_lightCache_self (s : StateB) (ln : Nat) :
    (updateLightCacheStep s ln).lightCache ln = DCCLight.specGateBAmended s ln := by
  have h52 : 52 + ln * 10 ≠ 51 + ln * 10 := by omega
  have h53 : 53 + ln * 10 ≠ 51 + ln * 10 := by omega
  simp only [updateLightCacheStep, gateB, DCCLight.specGateBAmended, numberOfFctsInCache]
  by_cases h : 5 - 1 < s.cvsCache (51 + ln * 10)
  · simp [h, Function.update_noteq h52, Function.update_noteq h53,
      show 4 < s.cvsCache (51 + ln * 10) by omega]
  · have h31 : s.cvsCache (51 + ln * 10) ≠ 31 := by omega
    have h4 : ¬ 4 < s.cvsCache (51 + ln * 10) := by omega
    have hb : (s.cvsCache (51 + ln * 10) == 31) = false := by
      simpa using h31
    simp [h, hb, h4]

lemma specGateBAmended_congr (t s : StateB) (ln : Nat)
    (h51 : t.cvsCache (51 + ln * 10) = s.cvsCache (51 + ln * 10))
    (h52 : t.cvsCache (52 + ln * 10) = s.cvsCache (52 + ln * 10))
    (h53 : t.cvsCache (53 + ln * 10) = s.cvsCache (53 + ln * 10))
    (hf : t.fctsCache = s.fctsCache)
    (hsp : t.currentSpeed = s.currentSpeed)
    (hd : t.currentDirection = s.currentDirection) :
    DCCLight.specGateBAmended t ln = DCCLight.specGateBAmended s ln := by
  simp only [DCCLight.specGateBAmended, h51, h52, h53, hf, hsp, hd]

/-- Gate recomputation of the NmraDcc variant, channel by channel, in terms
of the pre-update state. -/
lemma updateLightCacheB_gates (s : StateB) :
    (updateLightCache s).lightCache 0 = DCCLight.specGateBAmended s 0 ∧
    (updateLightCache s).lightCache 1 = DCCLight.specGateBAmended s 1 ∧
    (updateLightCache s).lightCache 2 = DCCLight.specGateBAmended s 2 ∧
    (updateLightCache s).lightCache 3 = DCCLight.specGateBAmended s 3 := by
  refine ⟨?_, ?_, ?_, ?_⟩
  · rw [updateLightCache, stepB_lightCache_ne _ 3 0 (by decide),
      stepB_lightCache_ne _ 2 0 (by decide), stepB_lightCache_ne _ 1 0 (by decide),
      stepB_lightCache_self]
  · rw [updateLightCache, stepB_lightCache_ne _ 3 1 (by decide),
      stepB_lightCache_ne _ 2 1 (by decide), stepB_lightCache_self]
    exact specGateBAmended_congr _ s 1
      (by rw [stepB_cvsCache]; norm_num) (by rw [stepB_cvsCache]; norm_num)
      (by rw [stepB_cvsCache]; norm_num) (stepB_fctsCache s 0)
      (stepB_currentSpeed s 0) (stepB_currentDirection s 0)
  · rw [updateLightCache, stepB_lightCache_ne _ 3 2 (by decide), stepB_lightCache_self]
    exact specGateBAmended_congr _ s 2
      (by rw [stepB_cvsCache, stepB_cvsCache]; norm_num)
      (by rw [stepB_cvsCache, stepB_cvsCache]; norm_num)
      (by rw [stepB_cvsCache, stepB_cvsCache]; norm_num)
      (by rw [stepB_fctsCache, stepB_fctsCache])
      (by rw [stepB_currentSpeed, stepB_currentSpeed])
      (by rw [stepB_currentDirection, stepB_currentDirection])
  · rw [updateLightCache, stepB_lightCache_self]
    exact specGateBAmended_congr _ s 3
      (by rw [stepB_cvsCache, stepB_cvsCache, stepB_cvsCache]; norm_num)
      (by rw [stepB_cvsCache, stepB_cvsCache, stepB_cvsCache]; norm_num)
      (by rw [stepB_cvsCache, stepB_cvsCache, stepB_cvsCache]; norm_num)
      (by rw [stepB_fctsCache, stepB_fctsCache, stepB_fctsCache])
      (by rw [stepB_currentSpeed, stepB_currentSpeed, stepB_currentSpeed])
      (by rw [stepB_currentDirection, stepB_currentDirection, stepB_currentDirection])

end NMRA

/-- Bit-mask test equals `Nat.testBit`: `(x & 2^k) != 0` is bit `k` of `x`. -/
lemma maskTestBit (x k : Nat) : (x &&& 2 ^ k != 0) = x.testBit k := by
  rcases h : x.testBit k with hf | ht
  · simp [Nat.and_two_pow, h]
  · have hpow : (2 : Nat) ^ k ≠ 0 := Nat.pos_iff_ne_zero.mp (Nat.pos_pow_of_pos k (by norm_num))
    simp [Nat.and_two_pow, h, hpow]

lemma maskBit0 (x : Nat) : (x &&& 1 != 0) = x.testBit 0 :=
  maskTestBit x 0

lemma maskBit1 (x : Nat) : (x &&& 2 != 0) = x.testBit 1 :=
  maskTestBit x 1

lemma maskBit2 (x : Nat) : (x &&& 4 != 0) = x.testBit 2 :=
  maskTestBit x 2

lemma maskBit3 (x : Nat) : (x &&& 8 != 0) = x.testBit 3 :=
  maskTestBit x 3

lemma maskBit4 (x : Nat) : (x &&& 16 != 0) = x.testBit 4 :=
  maskTestBit x 4

lemma maskBit5 (x : Nat) : (x &&& 32 != 0) = x.testBit 5 :=
  maskTestBit x 5

lemma maskBit6 (x : Nat) : (x &&& 64 != 0) = x.testBit 6 :=
  maskTestBit x 6

lemma maskBit7 (x : Nat) : (x &&& 128 != 0) = x.testBit 7 :=
  maskTestBit x 7

/-- Gate recomputation of the AP_DCC variant, channel by channel: the stored
gate is exactly the spec formula (with `speed > 0`). -/
lemma updateLightsStateCacheA_gates (s : APDCC.DecoderState) (loco : APDCC.LocoState) :
    (APDCC.updateLightsStateCache s loco).lightStateCache 0 = specGateA s loco 0 ∧
    (APDCC.updateLightsStateCache s loco).lightStateCache 1 = specGateA s loco 1 ∧
    (APDCC.updateLightsStateCache s loco).lightStateCache 2 = specGateA s loco 2 ∧
    (APDCC.updateLightsStateCache s loco).lightStateCache 3 = specGateA s loco 3 :=
  ⟨rfl, rfl, rfl, rfl⟩

/-! ### Concrete sample inputs used by witnesses and counterexamples -/

/-- Loco state with all function groups off, speed 0, direction forward. -/
def locoZero : APDCC.LocoState :=
  { F0F4 := 0, F5F8 := 0, F9F12 := 0, F13F20 := 0, F21F28 := 0, speed := 0, forward := true }

/-- All-zero decoder state (AP_DCC variant). -/
def stateZero : APDCC.DecoderState :=
  { cvsCache := fun _ => 0, eeprom := fun _ => 0,
    fctStateCache := fun _ => false, lightStateCache := fun _ => false }

/-- AP_DCC state whose channel-0 control-function CV is 30: not 31, above the
last valid `fctStateCache` index 28. -/
def stateCtrl30 : APDCC.DecoderState :=
  { stateZero with cvsCache := fun n => if n = 51 then 30 else 0 }

/-- AP_DCC state with channel 0 gated on, strobe effect (CV54 = 1) and
brightness 255 (CV50). -/
def stateStrobe : APDCC.DecoderState :=
  { cvsCache := fun n => if n = 54 then 1 else if n = 50 then 255 else 0,
    eeprom := fun _ => 0, fctStateCache := fun _ => false,
    lightStateCache := fun _ => true }

/-- AP_DCC state with channel 0 gated on and effect code 3 (unknown). -/
def stateEffect3 : APDCC.DecoderState :=
  { cvsCache := fun n => if n = 54 then 3 else 0,
    eeprom := fun _ => 0, fctStateCache := fun _ => false,
    lightStateCache := fun _ => true }

/-- NmraDcc state: channel 0 always-active control (CV51 = 31), speed
sensitive (CV53 = 1), current speed 1 (nonzero). -/
def stateSpeedOne : NMRA.StateB :=
  { cvsCache := fun n => if n = 51 then 31 else if n = 53 then 1 else 0,
    fctsCache := fun _ => false, lightCache := fun _ => false,
    currentSpeed := 1, currentDirection := NMRA.Direction.fwd }

/-- Write-byte request: CV 8, value 8 (the factory-reset trigger). -/
def reqReset : APDCC.CvRequest :=
  { number := 8, value := 8, operation := APDCC.CvOpKind.writeByte,
    writecmd := false, bitposition := 0, bitvalue := 0 }

/-- Bit-manipulation write request: CV 50, set bit 0 to 1. -/
def reqBitSet : APDCC.CvRequest :=
  { number := 50, value := 0, operation := APDCC.CvOpKind.bitManipulation,
    writecmd := true, bitposition := 0, bitvalue := 1 }

/-- Write-byte request to CV 200, beyond the 100-byte CV store. -/
def reqOut : APDCC.CvRequest :=
  { number := 200, value := 5, operation := APDCC.CvOpKind.writeByte,
    writecmd := false, bitposition := 0, bitvalue := 0 }

/-- Write-byte request: CV 60, value 42. -/
def reqW60 : APDCC.CvRequest :=
  { number := 60, value := 42, operation := APDCC.CvOpKind.writeByte,
    writecmd := false, bitposition := 0, bitvalue := 0 }

/-! ### Claim theorems -/

/-- C1 (amended): after each gate recomputation every channel's stored light
gate equals the conjunction of the control-function clause, the
direction-sensitivity clause and the speed-sensitivity clause — with the
speed comparison being `speed > 0` in the AP_DCC variant and `speed > 1` in
the NmraDcc variant, whose evaluator additionally treats a control-function
CV above 4 as always-active (it clamps the CV to 31 before gating). -/
theorem claim1_gate_formula :
    (∀ (s : APDCC.DecoderState) (loco : APDCC.LocoState),
        (APDCC.updateLightsStateCache s loco).lightStateCache 0 = specGateA s loco 0 ∧
        (APDCC.updateLightsStateCache s loco).lightStateCache 1 = specGateA s loco 1 ∧
        (APDCC.updateLightsStateCache s loco).lightStateCache 2 = specGateA s loco 2 ∧
        (APDCC.updateLightsStateCache s loco).lightStateCache 3 = specGateA s loco 3) ∧
    (∀ s : NMRA.StateB,
        (NMRA.updateLightCache s).lightCache 0 = specGateBAmended s 0 ∧
        (NMRA.updateLightCache s).lightCache 1 = specGateBAmended s 1 ∧
        (NMRA.updateLightCache s).lightCache 2 = specGateBAmended s 2 ∧
        (NMRA.updateLightCache s).lightCache 3 = specGateBAmended s 3) :=
  ⟨fun s loco => updateLightsStateCacheA_gates s loco,
   fun s => NMRA.updateLightCacheB_gates s⟩

/-- C1 counterexample: in the NmraDcc variant, channel 0 configured
speed-sensitive (CV53 = 1) with current speed 1 recomputes to gate `false`
(the code compares `currentSpeed > 1`), while the claim's conjunction with
`speed > 0` evaluates to `true`. -/
theorem claim1_gate_formula_cex :
    (NMRA.updateLightCache stateSpeedOne).lightCache 0 = false ∧
    specGateBClaim stateSpeedOne 0 = true :=
  ⟨rfl, rfl⟩

/-- C2 (code bug): in the AP_DCC variant, a control-function CV of 30 (not
31, above the last valid index 28) makes the gate evaluator read
`fctStateCache` out of bounds — the bounds-instrumented evaluation returns
`none` instead of the claimed always-active (value-31) treatment. -/
theorem claim2_ctrl_oob_read :
    APDCC.lightGateChecked stateCtrl30 locoZero 0 = none :=
  rfl

/-- C3 (amended): with the gate true and effect CV 1 (strobe), over one
150 ms period the duty equals `gamma(brightness)` for `t mod 150 < 12` (the
strobe window is the integer division 150/12 = 12, i.e. 8 percent of the
period, not 12.5 percent) and 0 from t = 12 up to t = 149. -/
theorem claim3_strobe_window (s : APDCC.DecoderState) (t lightNr : Nat)
    (hg : s.lightStateCache lightNr = true)
    (he : s.cvsCache (54 + lightNr * 10) = 1) :
    APDCC.valueLight s t lightNr =
      some (if t % 150 < 12 then gammaFn (s.cvsCache (50 + lightNr * 10)) else 0) := by
  simp only [APDCC.valueLight, APDCC.CV54Light0Effect, APDCC.CV50Light0Brightness,
    strobeFlashPeriod, hg, if_true, he]
  norm_num
  by_cases ht : t % 150 < 12 <;> simp [ht]

/-- C3 witness: evaluating the strobe theorem at the concrete strobe state
and t = 0. -/
theorem claim3_strobe_window_witness :
    stateStrobe.lightStateCache 0 = true ∧
    APDCC.valueLight stateStrobe 0 0 =
      some (if 0 % 150 < 12 then gammaFn (stateStrobe.cvsCache (50 + 0 * 10)) else 0) :=
  ⟨rfl, claim3_strobe_window stateStrobe 0 0 rfl rfl⟩

/-- C3 counterexample: at t = 12 the strobe duty is already 0 although the
claim says sampling at t = 12 returns nonzero (`gamma(255) = 255`). -/
theorem claim3_strobe_window_cex :
    APDCC.valueLight stateStrobe 12 0 = some 0 ∧
    gammaFn (stateStrobe.cvsCache (50 + 0 * 10)) = 255 :=
  ⟨rfl, rfl⟩

/-- C4: an in-range write-byte to the manufacturer-ID CV (8) with value 8
resets every CV in the store to its factory default and mirrors the whole
store to EEPROM; a write-byte to CV 8 with any other value leaves the CV
cache and the EEPROM byte-for-byte unchanged. -/
theorem claim4_cv8_reset (opMode : Nat) (req : APDCC.CvRequest) (loco : APDCC.LocoState)
    (s : APDCC.DecoderState)
    (hop : req.operation = APDCC.CvOpKind.writeByte) (hn : req.number = 8) :
    (req.value = 8 →
       ∀ n, n < 100 →
         (APDCC.cvOperation opMode req loco s).1.cvsCache n = APDCC.defaultCv n ∧
         (APDCC.cvOperation opMode req loco s).1.eeprom n = APDCC.defaultCv n) ∧
    (req.value ≠ 8 →
       (APDCC.cvOperation opMode req loco s).1.cvsCache = s.cvsCache ∧
       (APDCC.cvOperation opMode req loco s).1.eeprom = s.eeprom) := by
  obtain ⟨num, val, op, wc, bp, bv⟩ := req
  simp only at hop hn
  subst hop
  subst hn
  constructor
  · intro hv n hlt
    subst hv
    simp [APDCC.cvOperation, APDCC.NumberOfCvsInCache, APDCC.CV7ManufacturerVersionNumber,
      APDCC.CV8ManufacturerIDNumber, APDCC.resetCVsToDefault,
      APDCC.updateFctsStateCache, APDCC.updateLightsStateCache, hlt]
  · intro hv
    simp [APDCC.cvOperation, APDCC.NumberOfCvsInCache, APDCC.CV7ManufacturerVersionNumber,
      APDCC.CV8ManufacturerIDNumber, APDCC.updateFctsStateCache,
      APDCC.updateLightsStateCache, hv]

/-- C4 witness: resetting via CV 8 = 8 on the all-zero state makes CV 1 (and
its EEPROM mirror) the factory default 3. -/
theorem claim4_cv8_reset_witness :
    (APDCC.cvOperation 1 reqReset locoZero stateZero).1.cvsCache 1 = APDCC.defaultCv 1 ∧
    (APDCC.cvOperation 1 reqReset locoZero stateZero).1.eeprom 1 = APDCC.defaultCv 1 :=
  (claim4_cv8_reset 1 reqReset locoZero stateZero rfl rfl).1 rfl 1 (by decide)

/-- C5 (amended): an in-range bit-manipulation write stores the
set/cleared byte in the in-memory CV cache only — persistent storage is not
written by this path — and acknowledges exactly in service-mode context. -/
theorem claim5_bit_write (opMode : Nat) (req : APDCC.CvRequest) (loco : APDCC.LocoState)
    (s : APDCC.DecoderState)
    (hop : req.operation = APDCC.CvOpKind.bitManipulation) (hw : req.writecmd = true)
    (hn : req.number < 100) :
    (APDCC.cvOperation opMode req loco s).1.cvsCache req.number =
        APDCC.writeBit req (s.cvsCache req.number) ∧
    (APDCC.cvOperation opMode req loco s).1.eeprom = s.eeprom ∧
    (APDCC.cvOperation opMode req loco s).2 = (opMode == APDCC.OPModeServiceMode) := by
  obtain ⟨num, val, op, wc, bp, bv⟩ := req
  simp only at hop hw hn
  subst hop
  subst hw
  simp [APDCC.cvOperation, APDCC.NumberOfCvsInCache, hn,
    APDCC.updateFctsStateCache, APDCC.updateLightsStateCache, Function.update_same]

/-- C5 witness: the bit-set request on CV 50 stores the new byte in the
cache, leaves EEPROM unchanged and acknowledges in service mode. -/
theorem claim5_bit_write_witness :
    (APDCC.cvOperation 1 reqBitSet locoZero stateZero).1.cvsCache 50 =
        APDCC.writeBit reqBitSet (stateZero.cvsCache 50) ∧
    (APDCC.cvOperation 1 reqBitSet locoZero stateZero).1.eeprom = stateZero.eeprom ∧
    (APDCC.cvOperation 1 reqBitSet locoZero stateZero).2 = (1 == APDCC.OPModeServiceMode) :=
  claim5_bit_write 1 reqBitSet locoZero stateZero rfl rfl (by decide)

/-- C5 counterexample: after the bit-manipulation write that sets bit 0 of
CV 50, the cache holds the new byte 1 but the EEPROM is untouched (still the
all-zero function), contradicting the claimed cache + persistent-mirror
store. -/
theorem claim5_bit_write_cex :
    (APDCC.cvOperation 1 reqBitSet locoZero stateZero).1.cvsCache 50 = 1 ∧
    (APDCC.cvOperation 1 reqBitSet locoZero stateZero).1.eeprom = stateZero.eeprom ∧
    stateZero.eeprom 50 = 0 :=
  ⟨rfl, rfl, rfl⟩

/-- C6: a CV-access request whose CV number is at or beyond the 100-byte CV
store capacity is dropped silently: the returned state is the input state
(cache, EEPROM, function and light caches all unchanged) and no
acknowledgement is emitted, in either context. -/
theorem claim6_oob_dropped (opMode : Nat) (req : APDCC.CvRequest) (loco : APDCC.LocoState)
    (s : APDCC.DecoderState) (h : 100 ≤ req.number) :
    APDCC.cvOperation opMode req loco s = (s, false) := by
  simp [APDCC.cvOperation, APDCC.NumberOfCvsInCache, Nat.not_lt.mpr h]

/-- C6 witness: the write to CV 200 is dropped whole. -/
theorem claim6_oob_dropped_witness :
    100 ≤ reqOut.number ∧ APDCC.cvOperation 1 reqOut locoZero stateZero = (stateZero, false) :=
  ⟨by decide, claim6_oob_dropped 1 reqOut locoZero stateZero (by decide)⟩

/-- C7: an in-range write-byte to any CV other than the read-only CV 7 and
CV 8 stores the value, so an immediately following read of the same CV
returns it. -/
theorem claim7_write_read_roundtrip (opMode : Nat) (req : APDCC.CvRequest)
    (loco : APDCC.LocoState) (s : APDCC.DecoderState)
    (hop : req.operation = APDCC.CvOpKind.writeByte) (hn : req.number < 100)
    (h7 : req.number ≠ 7) (h8 : req.number ≠ 8) :
    (APDCC.cvOperation opMode req loco s).1.cvsCache req.number = req.value := by
  obtain ⟨num, val, op, wc, bp, bv⟩ := req
  simp only at hop hn h7 h8
  subst hop
  simp [APDCC.cvOperation, APDCC.NumberOfCvsInCache, APDCC.CV7ManufacturerVersionNumber,
    APDCC.CV8ManufacturerIDNumber, hn, h7, h8,
    APDCC.updateFctsStateCache, APDCC.updateLightsStateCache, Function.update_same]

/-- C7 witness: writing 42 to CV 60 and reading CV 60 back yields 42. -/
theorem claim7_write_read_roundtrip_witness :
    (APDCC.cvOperation 2 reqW60 locoZero stateZero).1.cvsCache 60 = 42 :=
  claim7_write_read_roundtrip 2 reqW60 locoZero stateZero rfl (by decide)
    (by decide) (by decide)

/-- C8 (code bug): with the gate true and effect CV 3 (none of 0, 1, 2) the
`valueLight` switch has no default arm, so control falls off the end of the
non-void C function — the embedding returns `none` (undefined value), not
the claimed safe default 0. -/
theorem claim8_unknown_effect :
    APDCC.valueLight stateEffect3 0 0 = none :=
  rfl

/-- C9: the function-state update maps group F0-F4 bit-reordered
(bit4→F0, bit0→F1, bit1→F2, bit2→F3, bit3→F4) and every other group maps
bit N of its bitmask to function N plus the group offset (5, 9, 13, 21). -/
theorem claim9_fct_group_mapping (s : APDCC.DecoderState) (loco : APDCC.LocoState) :
    (APDCC.updateFctsStateCache s loco).fctStateCache 0 = loco.F0F4.testBit 4 ∧
    (APDCC.updateFctsStateCache s loco).fctStateCache 1 = loco.F0F4.testBit 0 ∧
    (APDCC.updateFctsStateCache s loco).fctStateCache 2 = loco.F0F4.testBit 1 ∧
    (APDCC.updateFctsStateCache s loco).fctStateCache 3 = loco.F0F4.testBit 2 ∧
    (APDCC.updateFctsStateCache s loco).fctStateCache 4 = loco.F0F4.testBit 3 ∧
    (APDCC.updateFctsStateCache s loco).fctStateCache 5 = loco.F5F8.testBit 0 ∧
    (APDCC.updateFctsStateCache s loco).fctStateCache 6 = loco.F5F8.testBit 1 ∧
    (APDCC.updateFctsStateCache s loco).fctStateCache 7 = loco.F5F8.testBit 2 ∧
    (APDCC.updateFctsStateCache s loco).fctStateCache 8 = loco.F5F8.testBit 3 ∧
    (APDCC.updateFctsStateCache s loco).fctStateCache 9 = loco.F9F12.testBit 0 ∧
    (APDCC.updateFctsStateCache s loco).fctStateCache 10 = loco.F9F12.testBit 1 ∧
    (APDCC.updateFctsStateCache s loco).fctStateCache 11 = loco.F9F12.testBit 2 ∧
    (APDCC.updateFctsStateCache s loco).fctStateCache 12 = loco.F9F12.testBit 3 ∧
    (APDCC.updateFctsStateCache s loco).fctStateCache 13 = loco.F13F20.testBit 0 ∧
    (APDCC.updateFctsStateCache s loco).fctStateCache 14 = loco.F13F20.testBit 1 ∧
    (APDCC.updateFctsStateCache s loco).fctStateCache 15 = loco.F13F20.testBit 2 ∧
    (APDCC.updateFctsStateCache s loco).fctStateCache 16 = loco.F13F20.testBit 3 ∧
    (APDCC.updateFctsStateCache s loco).fctStateCache 17 = loco.F13F20.testBit 4 ∧
    (APDCC.updateFctsStateCache s loco).fctStateCache 18 = loco.F13F20.testBit 5 ∧
    (APDCC.updateFctsStateCache s loco).fctStateCache 19 = loco.F13F20.testBit 6 ∧
    (APDCC.updateFctsStateCache s loco).fctStateCache 20 = loco.F13F20.testBit 7 ∧
    (APDCC.updateFctsStateCache s loco).fctStateCache 21 = loco.F21F28.testBit 0 ∧
    (APDCC.updateFctsStateCache s loco).fctStateCache 22 = loco.F21F28.testBit 1 ∧
    (APDCC.updateFctsStateCache s loco).fctStateCache 23 = loco.F21F28.testBit 2 ∧
    (APDCC.updateFctsStateCache s loco).fctStateCache 24 = loco.F21F28.testBit 3 ∧
    (APDCC.updateFctsStateCache s loco).fctStateCache 25 = loco.F21F28.testBit 4 ∧
    (APDCC.updateFctsStateCache s loco).fctStateCache 26 = loco.F21F28.testBit 5 ∧
    (APDCC.updateFctsStateCache s loco).fctStateCache 27 = loco.F21F28.testBit 6 ∧
    (APDCC.updateFctsStateCache s loco).fctStateCache 28 = loco.F21F28.testBit 7 := by
  refine ⟨?_, ?_, ?_, ?_, ?_, ?_, ?_, ?_, ?_, ?_, ?_, ?_, ?_, ?_, ?_, ?_, ?_, ?_, ?_,
    ?_, ?_, ?_, ?_, ?_, ?_, ?_, ?_, ?_, ?_⟩ <;>
  simp [APDCC.updateFctsStateCache, maskBit0, maskBit1, maskBit2, maskBit3,
    maskBit4, maskBit5, maskBit6, maskBit7, beq_eq_decide]

/-- C10: in the NmraDcc variant, `updateLightCache` writes into the CV cache:
every channel's control-function CV (51, 61, 71, 81) whose cached value is
neither 31 nor a valid function index (i.e. above 4) is overwritten with 31,
and every other CV cache entry is left unchanged — so such a value written
via the protocol later reads back as 31 without any further CV-write. -/
theorem claim10_gate_recompute_rewrites_ctrl_cv (s : NMRA.StateB) (n : Nat) :
    (NMRA.updateLightCache s).cvsCache n =
      if (n = 51 ∨ n = 61 ∨ n = 71 ∨ n = 81) ∧ s.cvsCache n ≠ 31 ∧ 4 < s.cvsCache n
      then 31 else s.cvsCache n := by
  simp only [NMRA.updateLightCache, NMRA.stepB_cvsCache]
  norm_num
  split_ifs <;> omega

end DCCLight
